import Mathlib

/-!
Shallow embedding of the `hostname1` D-Bus client adapter
(ScriptRock/go-systemd).  The repository holds two near-identical Go
files: `src/hostname1/dbus.go` (constructor, getters and setters) and
`src/unnamed/part_000` (constructor and setters only).  The external
dbus client library is modelled as an explicit environment: connection
establishment, authentication and the Hello handshake are driven by a
`DBusLib` record and recorded as a list of `ConnEvent`s; remote method
calls are driven by a `Remote` function from a `BusCall` to a `Reply`
and every operation returns the list of `BusCall`s it issued.
-/

/-- Go `error` values are modelled by their message string; `none`
stands for a nil error. -/
abbrev GoError := String

/-- The dynamic value held by a dbus `Variant` (Go `interface\x7b\x7d` after
`Variant.Value()`), together with the Go dynamic type it would print
under `%T`. -/
inductive Value where
  | str (s : String)
  | int32 (n : Int)
  | boolean (b : Bool)
  | other (goType : String)
deriving DecidableEq, Repr

/-- The string Go `fmt.Sprintf("%T", v)` renders for the dynamic type of
the value. -/
def Value.typeName : Value → String
  | .str _ => "string"
  | .int32 _ => "int32"
  | .boolean _ => "bool"
  | .other t => t

/-- `dbus.Variant`: a tagged wire value; `Variant.Value()` is the
`value` field. -/
structure Variant where
  value : Value
deriving DecidableEq, Repr

/-- A positional argument of a remote method call (the setters pass a
string and a bool, the property getters pass strings). -/
inductive Arg where
  | str (s : String)
  | boolean (b : Bool)
deriving DecidableEq, Repr

/-- `dbus.BusObject`: the (destination bus name, object path) pair a
connection binds to via `conn.Object`. -/
structure BusObject where
  dest : String
  path : String
deriving DecidableEq, Repr

/-- One remote method invocation as issued by `object.Call(method,
flags, args...)`. -/
structure BusCall where
  obj : BusObject
  method : String
  flags : Nat
  args : List Arg
deriving DecidableEq, Repr

/-- The body of a reply message, at the types this adapter decodes:
empty (setters), a single variant (`Properties.Get`) or a property map
(`Properties.GetAll`). -/
inductive ReplyBody where
  | empty
  | variant (v : Variant)
  | propMap (m : List (String × Variant))
deriving DecidableEq, Repr

/-- The `*dbus.Call` a remote invocation returns: its `Err` field and
the reply body that `Store` decodes. -/
structure Reply where
  err : Option GoError
  body : ReplyBody
deriving DecidableEq, Repr

/-- The remote side: what reply each issued call receives. -/
abbrev Remote := BusCall → Reply

/-- The error `call.Store(...)` produces when the reply body does not
match the destination type. -/
def storeMismatch : GoError := "dbus: type mismatch when storing reply"

/-- `call.Store(&prop)` with `prop` a `dbus.Variant`: `Call.Err` is
returned verbatim when non-nil, otherwise the body must be a single
variant. -/
def Reply.storeVariant (r : Reply) : Except GoError Variant :=
  match r.err with
  | some e => .error e
  | none =>
    match r.body with
    | .variant v => .ok v
    | _ => .error storeMismatch

/-- `call.Store(&props)` with `props` a `map[string]dbus.Variant`. -/
def Reply.storePropMap (r : Reply) : Except GoError (List (String × Variant)) :=
  match r.err with
  | some e => .error e
  | none =>
    match r.body with
    | .propMap m => .ok m
    | _ => .error storeMismatch

/-- Handle of one private connection returned by
`dbus.SystemBusPrivate`. -/
abbrev ConnHandle := Nat

/-- A dbus authentication mechanism; the adapter only ever builds
`dbus.AuthExternal(identity)`. -/
inductive Auth where
  | authExternal (identity : String)
deriving DecidableEq, Repr

/-- The behaviour of the dbus library and process during construction:
the outcome of `SystemBusPrivate`, of `conn.Auth(methods)`, of
`conn.Hello()`, and `os.Getuid()`. -/
structure DBusLib where
  systemBusPrivate : Except GoError ConnHandle
  authResult : ConnHandle → List Auth → Option GoError
  helloResult : ConnHandle → Option GoError
  getuid : Int

/-- Events on the connection during construction, in the order they
happen. -/
inductive ConnEvent where
  | opened (h : ConnHandle)
  | authCalled (h : ConnHandle) (methods : List Auth)
  | helloCalled (h : ConnHandle)
  | closed (h : ConnHandle)
  | bound (h : ConnHandle) (obj : BusObject)
deriving DecidableEq, Repr

/-- Go `strconv.Itoa`: decimal rendering of an integer. -/
def strconvItoa (n : Int) : String := toString n

/-- The `Conn` struct of both source files: the private connection and
the bound remote object. -/
structure Conn where
  conn : ConnHandle
  object : BusObject
deriving DecidableEq, Repr

namespace hostname1

/- Embedding of src/hostname1/dbus.go. -/

def dbusInterface : String := "org.freedesktop.hostname1"

def dbusPath : String := "/org/freedesktop/hostname1"

/-- `(c *Conn) initConnection() error`: open a private system bus
connection, authenticate with the EXTERNAL mechanism carrying the
decimal uid, run the Hello handshake, and bind the hostname1 object;
on an auth or Hello failure the connection is closed before the error
is returned.  Returns the connection events in order, and either the
fully initialised `Conn` or the error. -/
def initConnection (lib : DBusLib) : List ConnEvent × Except GoError Conn :=
  match lib.systemBusPrivate with
  | .error e => ([], .error e)
  | .ok h =>
    let methods : List Auth := [Auth.authExternal (strconvItoa lib.getuid)]
    match lib.authResult h methods with
    | some e =>
      ([ConnEvent.opened h, ConnEvent.authCalled h methods, ConnEvent.closed h], .error e)
    | none =>
      match lib.helloResult h with
      | some e =>
        ([ConnEvent.opened h, ConnEvent.authCalled h methods, ConnEvent.helloCalled h,
          ConnEvent.closed h], .error e)
      | none =>
        let obj : BusObject := { dest := "org.freedesktop.hostname1", path := dbusPath }
        ([ConnEvent.opened h, ConnEvent.authCalled h methods, ConnEvent.helloCalled h,
          ConnEvent.bound h obj], .ok { conn := h, object := obj })

/-- `New() (*Conn, error)`: runs `initConnection` and returns either
the adapter or only the error. -/
def New (lib : DBusLib) : List ConnEvent × Except GoError Conn :=
  match initConnection lib with
  | (tr, .error e) => (tr, .error e)
  | (tr, .ok c) => (tr, .ok c)

/-- `c.object.Call(method, flags, args...)`: issues exactly one remote
call and yields its reply. -/
def objectCall (obj : BusObject) (env : Remote) (method : String) (flags : Nat)
    (args : List Arg) : List BusCall × Reply :=
  let call : BusCall := { obj := obj, method := method, flags := flags, args := args }
  ([call], env call)

/-- `GetProperties`: `Properties.GetAll` on the hostname1 interface,
then unwrap each variant with `Value()`. -/
def GetProperties (c : Conn) (env : Remote) :
    List BusCall × Except GoError (List (String × Value)) :=
  match objectCall c.object env "org.freedesktop.DBus.Properties.GetAll" 0
      [Arg.str dbusInterface] with
  | (tr, reply) =>
    match reply.storePropMap with
    | .error e => (tr, .error e)
    | .ok props => (tr, .ok (props.map (fun kv => (kv.1, kv.2.value))))

/-- `GetProperty`: `Properties.Get` for one property, returning the
unwrapped variant value. -/
def GetProperty (c : Conn) (env : Remote) (propertyName : String) :
    List BusCall × Except GoError Value :=
  match objectCall c.object env "org.freedesktop.DBus.Properties.Get" 0
      [Arg.str dbusInterface, Arg.str propertyName] with
  | (tr, reply) =>
    match reply.storeVariant with
    | .error e => (tr, .error e)
    | .ok prop => (tr, .ok prop.value)

/-- `GetHostname`: `GetProperty("Hostname")` coerced to a string, with
a `%T` type-mismatch error otherwise; the Go zero value `""` fills the
string slot on every error path. -/
def GetHostname (c : Conn) (env : Remote) : List BusCall × String × Option GoError :=
  match GetProperty c env "Hostname" with
  | (tr, .error e) => (tr, "", some e)
  | (tr, .ok hn) =>
    match hn with
    | Value.str hns => (tr, hns, none)
    | v => (tr, "", some ("hostname has incorrect type: " ++ v.typeName))

/-- `GetStaticHostname`: like `GetHostname` for `"StaticHostname"`. -/
def GetStaticHostname (c : Conn) (env : Remote) : List BusCall × String × Option GoError :=
  match GetProperty c env "StaticHostname" with
  | (tr, .error e) => (tr, "", some e)
  | (tr, .ok hn) =>
    match hn with
    | Value.str hns => (tr, hns, none)
    | v => (tr, "", some ("hostname has incorrect type: " ++ v.typeName))

/-- `SetHostname(name, askForAuth)`. -/
def SetHostname (c : Conn) (env : Remote) (name : String) (askForAuth : Bool) :
    List BusCall × Option GoError :=
  match objectCall c.object env (dbusInterface ++ ".SetHostname") 0
      [Arg.str name, Arg.boolean askForAuth] with
  | (tr, reply) => (tr, reply.err)

/-- `SetStaticHostname(name, askForAuth)`. -/
def SetStaticHostname (c : Conn) (env : Remote) (name : String) (askForAuth : Bool) :
    List BusCall × Option GoError :=
  match objectCall c.object env (dbusInterface ++ ".SetStaticHostname") 0
      [Arg.str name, Arg.boolean askForAuth] with
  | (tr, reply) => (tr, reply.err)

/-- `SetPrettyHostname(name, askForAuth)`. -/
def SetPrettyHostname (c : Conn) (env : Remote) (name : String) (askForAuth : Bool) :
    List BusCall × Option GoError :=
  match objectCall c.object env (dbusInterface ++ ".SetPrettyHostname") 0
      [Arg.str name, Arg.boolean askForAuth] with
  | (tr, reply) => (tr, reply.err)

/-- `SetIconName(name, askForAuth)`. -/
def SetIconName (c : Conn) (env : Remote) (name : String) (askForAuth : Bool) :
    List BusCall × Option GoError :=
  match objectCall c.object env (dbusInterface ++ ".SetIconName") 0
      [Arg.str name, Arg.boolean askForAuth] with
  | (tr, reply) => (tr, reply.err)

/-- `SetChassis(name, askForAuth)`. -/
def SetChassis (c : Conn) (env : Remote) (name : String) (askForAuth : Bool) :
    List BusCall × Option GoError :=
  match objectCall c.object env (dbusInterface ++ ".SetChassis") 0
      [Arg.str name, Arg.boolean askForAuth] with
  | (tr, reply) => (tr, reply.err)

end hostname1

namespace part000

/- Embedding of src/unnamed/part_000 (the setters-only variant of the
same package; it differs from dbus.go only in its dbus import path and
in lacking Close and the getters). -/

def dbusInterface : String := "org.freedesktop.hostname1"

def dbusPath : String := "/org/freedesktop/hostname1"

/-- `(c *Conn) initConnection() error` of the setters-only variant. -/
def initConnection (lib : DBusLib) : List ConnEvent × Except GoError Conn :=
  match lib.systemBusPrivate with
  | .error e => ([], .error e)
  | .ok h =>
    let methods : List Auth := [Auth.authExternal (strconvItoa lib.getuid)]
    match lib.authResult h methods with
    | some e =>
      ([ConnEvent.opened h, ConnEvent.authCalled h methods, ConnEvent.closed h], .error e)
    | none =>
      match lib.helloResult h with
      | some e =>
        ([ConnEvent.opened h, ConnEvent.authCalled h methods, ConnEvent.helloCalled h,
          ConnEvent.closed h], .error e)
      | none =>
        let obj : BusObject := { dest := "org.freedesktop.hostname1", path := dbusPath }
        ([ConnEvent.opened h, ConnEvent.authCalled h methods, ConnEvent.helloCalled h,
          ConnEvent.bound h obj], .ok { conn := h, object := obj })

/-- `New() (*Conn, error)` of the setters-only variant. -/
def New (lib : DBusLib) : List ConnEvent × Except GoError Conn :=
  match initConnection lib with
  | (tr, .error e) => (tr, .error e)
  | (tr, .ok c) => (tr, .ok c)

/-- `c.object.Call(method, flags, args...)` in the setters-only
variant. -/
def objectCall (obj : BusObject) (env : Remote) (method : String) (flags : Nat)
    (args : List Arg) : List BusCall × Reply :=
  let call : BusCall := { obj := obj, method := method, flags := flags, args := args }
  ([call], env call)

/-- `SetHostname(name, askForAuth)`. -/
def SetHostname (c : Conn) (env : Remote) (name : String) (askForAuth : Bool) :
    List BusCall × Option GoError :=
  match objectCall c.object env (dbusInterface ++ ".SetHostname") 0
      [Arg.str name, Arg.boolean askForAuth] with
  | (tr, reply) => (tr, reply.err)

/-- `SetStaticHostname(name, askForAuth)`. -/
def SetStaticHostname (c : Conn) (env : Remote) (name : String) (askForAuth : Bool) :
    List BusCall × Option GoError :=
  match objectCall c.object env (dbusInterface ++ ".SetStaticHostname") 0
      [Arg.str name, Arg.boolean askForAuth] with
  | (tr, reply) => (tr, reply.err)

/-- `SetPrettyHostname(name, askForAuth)`. -/
def SetPrettyHostname (c : Conn) (env : Remote) (name : String) (askForAuth : Bool) :
    List BusCall × Option GoError :=
  match objectCall c.object env (dbusInterface ++ ".SetPrettyHostname") 0
      [Arg.str name, Arg.boolean askForAuth] with
  | (tr, reply) => (tr, reply.err)

/-- `SetIconName(name, askForAuth)`. -/
def SetIconName (c : Conn) (env : Remote) (name : String) (askForAuth : Bool) :
    List BusCall × Option GoError :=
  match objectCall c.object env (dbusInterface ++ ".SetIconName") 0
      [Arg.str name, Arg.boolean askForAuth] with
  | (tr, reply) => (tr, reply.err)

/-- `SetChassis(name, askForAuth)`. -/
def SetChassis (c : Conn) (env : Remote) (name : String) (askForAuth : Bool) :
    List BusCall × Option GoError :=
  match objectCall c.object env (dbusInterface ++ ".SetChassis") 0
      [Arg.str name, Arg.boolean askForAuth] with
  | (tr, reply) => (tr, reply.err)

end part000

/-- The operations available on an adapter after construction
(dbus.go variant). -/
inductive Op where
  | getProperties
  | getProperty (p : String)
  | getHostname
  | getStaticHostname
  | setHostname (n : String) (a : Bool)
  | setStaticHostname (n : String) (a : Bool)
  | setPrettyHostname (n : String) (a : Bool)
  | setIconName (n : String) (a : Bool)
  | setChassis (n : String) (a : Bool)
deriving DecidableEq, Repr

/-- The result an operation hands back to its caller. -/
inductive OpResult where
  | propsR (r : Except GoError (List (String × Value)))
  | valueR (r : Except GoError Value)
  | stringR (s : String) (e : Option GoError)
  | errR (e : Option GoError)
deriving Repr

/-- Run one post-construction operation against the adapter state `c`:
the returned `Conn` is the receiver after the call (no method body
assigns to `c.conn` or `c.object`, so it is `c` itself), together with
the calls issued and the caller-visible result. -/
def runOp (c : Conn) (env : Remote) : Op → Conn × List BusCall × OpResult
  | .getProperties =>
    match hostname1.GetProperties c env with
    | (tr, r) => (c, tr, .propsR r)
  | .getProperty p =>
    match hostname1.GetProperty c env p with
    | (tr, r) => (c, tr, .valueR r)
  | .getHostname =>
    match hostname1.GetHostname c env with
    | (tr, s, e) => (c, tr, .stringR s e)
  | .getStaticHostname =>
    match hostname1.GetStaticHostname c env with
    | (tr, s, e) => (c, tr, .stringR s e)
  | .setHostname n a =>
    match hostname1.SetHostname c env n a with
    | (tr, e) => (c, tr, .errR e)
  | .setStaticHostname n a =>
    match hostname1.SetStaticHostname c env n a with
    | (tr, e) => (c, tr, .errR e)
  | .setPrettyHostname n a =>
    match hostname1.SetPrettyHostname c env n a with
    | (tr, e) => (c, tr, .errR e)
  | .setIconName n a =>
    match hostname1.SetIconName c env n a with
    | (tr, e) => (c, tr, .errR e)
  | .setChassis n a =>
    match hostname1.SetChassis c env n a with
    | (tr, e) => (c, tr, .errR e)

/- Concrete fixtures used by the witness theorems. -/

/-- A concrete adapter state, as produced by a successful `New`. -/
def sampleConn : Conn :=
  { conn := 1, object := { dest := "org.freedesktop.hostname1", path := "/org/freedesktop/hostname1" } }

/-- A stub remote that answers every `Properties.Get` with the tagged
string `"node-1"` and every other call with an empty success. -/
def envNode1 : Remote := fun call =>
  if call.method = "org.freedesktop.DBus.Properties.Get" then
    { err := none, body := ReplyBody.variant { value := Value.str "node-1" } }
  else
    { err := none, body := ReplyBody.empty }

/-- A stub remote that answers every `Properties.Get` with the tagged
32-bit integer `7`. -/
def envInt7 : Remote := fun call =>
  if call.method = "org.freedesktop.DBus.Properties.Get" then
    { err := none, body := ReplyBody.variant { value := Value.int32 7 } }
  else
    { err := none, body := ReplyBody.empty }

/-- A stub remote that fails every call with the same error. -/
def envFail : Remote := fun _ =>
  { err := some "remote failure", body := ReplyBody.empty }

/-- A stub remote that answers `Properties.GetAll` with a two-entry
property map. -/
def envTwoProps : Remote := fun call =>
  if call.method = "org.freedesktop.DBus.Properties.GetAll" then
    { err := none,
      body := ReplyBody.propMap
        [("Hostname", { value := Value.str "node-1" }),
         ("Chassis", { value := Value.str "vm" })] }
  else
    { err := none, body := ReplyBody.empty }

/-- A library behaviour whose authentication step rejects. -/
def libAuthFail : DBusLib :=
  { systemBusPrivate := Except.ok 7
  , authResult := fun _ _ => some "auth rejected"
  , helloResult := fun _ => none
  , getuid := 0 }

/-- A library behaviour whose Hello handshake rejects. -/
def libHelloFail : DBusLib :=
  { systemBusPrivate := Except.ok 7
  , authResult := fun _ _ => none
  , helloResult := fun _ => some "hello rejected"
  , getuid := 0 }

/-- A library behaviour in which construction succeeds. -/
def libOk : DBusLib :=
  { systemBusPrivate := Except.ok 7
  , authResult := fun _ _ => none
  , helloResult := fun _ => none
  , getuid := 1000 }


/-- `New` forwards the trace and outcome of `initConnection`
unchanged. -/
theorem hostname1.New_eq (lib : DBusLib) :
    hostname1.New lib = hostname1.initConnection lib := by
  unfold hostname1.New
  split <;> simp_all

/-- The object `initConnection` binds on success. -/
def hostnameObject : BusObject :=
  { dest := "org.freedesktop.hostname1", path := "/org/freedesktop/hostname1" }

/-- The four possible outcomes of `initConnection`: connect failure
(no events), auth failure (open, auth, close), Hello failure (open,
auth, hello, close), or success (open, auth, hello, bind). -/
theorem hostname1.initConnection_shape (lib : DBusLib) :
    (∃ e, hostname1.initConnection lib = ([], Except.error e)) ∨
    (∃ h e, hostname1.initConnection lib =
      ([ConnEvent.opened h,
        ConnEvent.authCalled h [Auth.authExternal (strconvItoa lib.getuid)],
        ConnEvent.closed h], Except.error e)) ∨
    (∃ h e, hostname1.initConnection lib =
      ([ConnEvent.opened h,
        ConnEvent.authCalled h [Auth.authExternal (strconvItoa lib.getuid)],
        ConnEvent.helloCalled h, ConnEvent.closed h], Except.error e)) ∨
    (∃ h, hostname1.initConnection lib =
      ([ConnEvent.opened h,
        ConnEvent.authCalled h [Auth.authExternal (strconvItoa lib.getuid)],
        ConnEvent.helloCalled h, ConnEvent.bound h hostnameObject],
       Except.ok { conn := h, object := hostnameObject })) := by
  unfold hostname1.initConnection
  dsimp only
  split
  · exact Or.inl ⟨_, rfl⟩
  · split
    · exact Or.inr (Or.inl ⟨_, _, rfl⟩)
    · split
      · exact Or.inr (Or.inr (Or.inl ⟨_, _, rfl⟩))
      · exact Or.inr (Or.inr (Or.inr ⟨_, rfl⟩))

/-- Claim C1: for every failure during construction (connection
establishment, authentication, or the session Hello handshake), `New`
returns no adapter together with a non-nil error, and every connection
that was opened during the attempt appears closed in the recorded
event trace before the error is returned. -/
theorem c1_construction_failure_no_leak (lib : DBusLib) (e : GoError)
    (hfail : (hostname1.New lib).2 = Except.error e) :
    (∀ c : Conn, (hostname1.New lib).2 ≠ Except.ok c) ∧
    (∀ h : ConnHandle, ConnEvent.opened h ∈ (hostname1.New lib).1 →
      ConnEvent.closed h ∈ (hostname1.New lib).1) := by
  refine ⟨?_, ?_⟩
  · intro c hc
    rw [hfail] at hc
    exact Except.noConfusion hc
  · intro h hmem
    rw [hostname1.New_eq] at hfail hmem ⊢
    rcases hostname1.initConnection_shape lib with
      ⟨e0, hic⟩ | ⟨h0, e0, hic⟩ | ⟨h0, e0, hic⟩ | ⟨h0, hic⟩ <;>
      rw [hic] at hfail hmem ⊢ <;> simp_all

/-- Witness for C1: with an auth-rejecting library, connection 7 is
opened during construction and has been closed by the time `New`
returns its error. -/
theorem c1_construction_failure_no_leak_witness :
    ConnEvent.opened 7 ∈ (hostname1.New libAuthFail).1 ∧
    ConnEvent.closed 7 ∈ (hostname1.New libAuthFail).1 :=
  ⟨by decide,
   (c1_construction_failure_no_leak libAuthFail "auth rejected" rfl).2 7 (by decide)⟩

/-- Claim C2: each of the five setters, in both source variants,
issues exactly one remote call, whose interface-qualified method name
is `org.freedesktop.hostname1.` followed by the setter's own name,
carrying exactly the two positional arguments `(name, askForAuth)` in
that order. -/
theorem c2_setters_one_call_shape (c : Conn) (env : Remote) (name : String)
    (askForAuth : Bool) :
    (hostname1.SetHostname c env name askForAuth).1 =
      [{ obj := c.object, method := "org.freedesktop.hostname1.SetHostname",
         flags := 0, args := [Arg.str name, Arg.boolean askForAuth] }] ∧
    (hostname1.SetStaticHostname c env name askForAuth).1 =
      [{ obj := c.object, method := "org.freedesktop.hostname1.SetStaticHostname",
         flags := 0, args := [Arg.str name, Arg.boolean askForAuth] }] ∧
    (hostname1.SetPrettyHostname c env name askForAuth).1 =
      [{ obj := c.object, method := "org.freedesktop.hostname1.SetPrettyHostname",
         flags := 0, args := [Arg.str name, Arg.boolean askForAuth] }] ∧
    (hostname1.SetIconName c env name askForAuth).1 =
      [{ obj := c.object, method := "org.freedesktop.hostname1.SetIconName",
         flags := 0, args := [Arg.str name, Arg.boolean askForAuth] }] ∧
    (hostname1.SetChassis c env name askForAuth).1 =
      [{ obj := c.object, method := "org.freedesktop.hostname1.SetChassis",
         flags := 0, args := [Arg.str name, Arg.boolean askForAuth] }] ∧
    (part000.SetHostname c env name askForAuth).1 =
      [{ obj := c.object, method := "org.freedesktop.hostname1.SetHostname",
         flags := 0, args := [Arg.str name, Arg.boolean askForAuth] }] ∧
    (part000.SetStaticHostname c env name askForAuth).1 =
      [{ obj := c.object, method := "org.freedesktop.hostname1.SetStaticHostname",
         flags := 0, args := [Arg.str name, Arg.boolean askForAuth] }] ∧
    (part000.SetPrettyHostname c env name askForAuth).1 =
      [{ obj := c.object, method := "org.freedesktop.hostname1.SetPrettyHostname",
         flags := 0, args := [Arg.str name, Arg.boolean askForAuth] }] ∧
    (part000.SetIconName c env name askForAuth).1 =
      [{ obj := c.object, method := "org.freedesktop.hostname1.SetIconName",
         flags := 0, args := [Arg.str name, Arg.boolean askForAuth] }] ∧
    (part000.SetChassis c env name askForAuth).1 =
      [{ obj := c.object, method := "org.freedesktop.hostname1.SetChassis",
         flags := 0, args := [Arg.str name, Arg.boolean askForAuth] }] :=
  ⟨rfl, rfl, rfl, rfl, rfl, rfl, rfl, rfl, rfl, rfl⟩

/-- Claim C7: every authentication request recorded during
construction carries exactly one mechanism, the EXTERNAL
peer-credential method, and its identity string is the decimal
rendering of the process uid, never a resolved username. -/
theorem c7_auth_external_numeric_uid (lib : DBusLib) (h : ConnHandle)
    (ms : List Auth)
    (hmem : ConnEvent.authCalled h ms ∈ (hostname1.New lib).1) :
    ms = [Auth.authExternal (strconvItoa lib.getuid)] ∧ ms.length = 1 := by
  rw [hostname1.New_eq] at hmem
  rcases hostname1.initConnection_shape lib with
    ⟨e0, hic⟩ | ⟨h0, e0, hic⟩ | ⟨h0, e0, hic⟩ | ⟨h0, hic⟩ <;>
    rw [hic] at hmem <;> simp_all

/-- Witness for C7: in a successful construction with uid 1000 the
recorded mechanism list is the singleton EXTERNAL "1000". -/
theorem c7_auth_external_numeric_uid_witness :
    ([Auth.authExternal "1000"] : List Auth) =
      [Auth.authExternal (strconvItoa libOk.getuid)] ∧
    ([Auth.authExternal "1000"] : List Auth).length = 1 :=
  c7_auth_external_numeric_uid libOk 7 [Auth.authExternal "1000"] (by decide)

/-- Claim C3: when the property value decoded for `Hostname` or
`StaticHostname` is not a string, the typed getter fails with a
type-mismatch error naming the observed dynamic type, and does not
return a zero-value string with a nil error. -/
theorem c3_getter_type_mismatch (c : Conn) (env : Remote) (v : Value)
    (hnotstr : ∀ s : String, v ≠ Value.str s) :
    ((hostname1.GetProperty c env "Hostname").2 = Except.ok v →
      (hostname1.GetHostname c env).2 =
        ("", some ("hostname has incorrect type: " ++ v.typeName))) ∧
    ((hostname1.GetProperty c env "StaticHostname").2 = Except.ok v →
      (hostname1.GetStaticHostname c env).2 =
        ("", some ("hostname has incorrect type: " ++ v.typeName))) := by
  constructor
  · intro hok
    unfold hostname1.GetHostname
    split
    · simp_all
    · split <;> simp_all
      exact hnotstr _ hok.symm
  · intro hok
    unfold hostname1.GetStaticHostname
    split
    · simp_all
    · split <;> simp_all
      exact hnotstr _ hok.symm

/-- Witness for C3: a stub returning the tagged 32-bit integer 7 makes
`GetHostname` fail naming the type `int32`. -/
theorem c3_getter_type_mismatch_witness :
    (hostname1.GetHostname sampleConn envInt7).2 =
      ("", some ("hostname has incorrect type: " ++ (Value.int32 7).typeName)) :=
  (c3_getter_type_mismatch sampleConn envInt7 (Value.int32 7)
    (fun _ h => Value.noConfusion h)).1 rfl

/-- Claim C6: when the property fetch decodes to a string, the typed
getter returns exactly that string with a nil error: `GetHostname` is
`GetProperty("Hostname")` followed by string coercion, and
`GetStaticHostname` likewise for `"StaticHostname"`. -/
theorem c6_getter_decodes_string (c : Conn) (env : Remote) (s : String) :
    ((hostname1.GetProperty c env "Hostname").2 = Except.ok (Value.str s) →
      (hostname1.GetHostname c env).2 = (s, none)) ∧
    ((hostname1.GetProperty c env "StaticHostname").2 = Except.ok (Value.str s) →
      (hostname1.GetStaticHostname c env).2 = (s, none)) := by
  constructor
  · intro hok
    unfold hostname1.GetHostname
    split
    · simp_all
    · split <;> simp_all
  · intro hok
    unfold hostname1.GetStaticHostname
    split
    · simp_all
    · split <;> simp_all

/-- Witness for C6: the stub answering `Properties.Get` with the
tagged string "node-1" makes `GetHostname` return "node-1" and a nil
error. -/
theorem c6_getter_decodes_string_witness :
    (hostname1.GetHostname sampleConn envNode1).2 = ("node-1", none) :=
  (c6_getter_decodes_string sampleConn envNode1 "node-1").1 rfl

/-- Claim C10: whenever `GetHostname` or `GetStaticHostname` returns a
non-nil error, the accompanying string result is exactly the empty
string. -/
theorem c10_getter_error_empty_string (c : Conn) (env : Remote) (e : GoError) :
    ((hostname1.GetHostname c env).2.2 = some e →
      (hostname1.GetHostname c env).2.1 = "") ∧
    ((hostname1.GetStaticHostname c env).2.2 = some e →
      (hostname1.GetStaticHostname c env).2.1 = "") := by
  constructor
  · unfold hostname1.GetHostname
    split
    · intro _; rfl
    · split <;> intro h <;> simp_all
  · unfold hostname1.GetStaticHostname
    split
    · intro _; rfl
    · split <;> intro h <;> simp_all

/-- Witness for C10: with a failing remote, `GetHostname` reports the
error and the empty string. -/
theorem c10_getter_error_empty_string_witness :
    (hostname1.GetHostname sampleConn envFail).2.1 = "" :=
  (c10_getter_error_empty_string sampleConn envFail "remote failure").1 rfl

/-- Claim C5: a remote call that carries an error makes the wrapper
return that exact error value to its caller, for the five setters, the
two property getters and the two typed hostname getters. -/
theorem c5_errors_propagate_verbatim (c : Conn) (env : Remote)
    (name p : String) (ask : Bool) (e : GoError) :
    ((env { obj := c.object, method := hostname1.dbusInterface ++ ".SetHostname",
            flags := 0, args := [Arg.str name, Arg.boolean ask] }).err = some e →
      (hostname1.SetHostname c env name ask).2 = some e) ∧
    ((env { obj := c.object, method := hostname1.dbusInterface ++ ".SetStaticHostname",
            flags := 0, args := [Arg.str name, Arg.boolean ask] }).err = some e →
      (hostname1.SetStaticHostname c env name ask).2 = some e) ∧
    ((env { obj := c.object, method := hostname1.dbusInterface ++ ".SetPrettyHostname",
            flags := 0, args := [Arg.str name, Arg.boolean ask] }).err = some e →
      (hostname1.SetPrettyHostname c env name ask).2 = some e) ∧
    ((env { obj := c.object, method := hostname1.dbusInterface ++ ".SetIconName",
            flags := 0, args := [Arg.str name, Arg.boolean ask] }).err = some e →
      (hostname1.SetIconName c env name ask).2 = some e) ∧
    ((env { obj := c.object, method := hostname1.dbusInterface ++ ".SetChassis",
            flags := 0, args := [Arg.str name, Arg.boolean ask] }).err = some e →
      (hostname1.SetChassis c env name ask).2 = some e) ∧
    ((env { obj := c.object, method := "org.freedesktop.DBus.Properties.Get",
            flags := 0, args := [Arg.str hostname1.dbusInterface, Arg.str p] }).err = some e →
      (hostname1.GetProperty c env p).2 = Except.error e) ∧
    ((env { obj := c.object, method := "org.freedesktop.DBus.Properties.GetAll",
            flags := 0, args := [Arg.str hostname1.dbusInterface] }).err = some e →
      (hostname1.GetProperties c env).2 = Except.error e) ∧
    ((hostname1.GetProperty c env "Hostname").2 = Except.error e →
      (hostname1.GetHostname c env).2 = ("", some e)) ∧
    ((hostname1.GetProperty c env "StaticHostname").2 = Except.error e →
      (hostname1.GetStaticHostname c env).2 = ("", some e)) := by
  refine ⟨fun h => h, fun h => h, fun h => h, fun h => h, fun h => h, ?_, ?_, ?_, ?_⟩
  · intro h
    unfold hostname1.GetProperty hostname1.objectCall Reply.storeVariant
    dsimp only
    rw [h]
  · intro h
    unfold hostname1.GetProperties hostname1.objectCall Reply.storePropMap
    dsimp only
    rw [h]
  · intro h
    unfold hostname1.GetHostname
    split <;> simp_all
  · intro h
    unfold hostname1.GetStaticHostname
    split <;> simp_all

/-- Witness for C5: the always-failing stub's error comes back
unchanged from a setter. -/
theorem c5_errors_propagate_verbatim_witness :
    (hostname1.SetHostname sampleConn envFail "node-2" false).2 =
      some "remote failure" :=
  (c5_errors_propagate_verbatim sampleConn envFail "node-2" "Hostname" false
    "remote failure").1 rfl

/-- Claim C4: `GetProperties` returns the property map with exactly
the reported keys and variant-unwrapped values, and on a failed call
returns the error verbatim with no map at all. -/
theorem c4_get_properties_exact (c : Conn) (env : Remote) :
    (∀ e : GoError,
      (env { obj := c.object, method := "org.freedesktop.DBus.Properties.GetAll",
             flags := 0, args := [Arg.str hostname1.dbusInterface] }).err = some e →
      (hostname1.GetProperties c env).2 = Except.error e) ∧
    (∀ props : List (String × Variant),
      (env { obj := c.object, method := "org.freedesktop.DBus.Properties.GetAll",
             flags := 0, args := [Arg.str hostname1.dbusInterface] }).err = none →
      (env { obj := c.object, method := "org.freedesktop.DBus.Properties.GetAll",
             flags := 0, args := [Arg.str hostname1.dbusInterface] }).body =
        ReplyBody.propMap props →
      ∃ out, (hostname1.GetProperties c env).2 = Except.ok out ∧
        out.map Prod.fst = props.map Prod.fst ∧
        out = props.map (fun kv => (kv.1, kv.2.value))) := by
  constructor
  · intro e h
    unfold hostname1.GetProperties hostname1.objectCall Reply.storePropMap
    dsimp only
    rw [h]
  · intro props herr hbody
    unfold hostname1.GetProperties hostname1.objectCall Reply.storePropMap
    dsimp only
    rw [herr, hbody]
    refine ⟨props.map (fun kv => (kv.1, kv.2.value)), rfl, ?_, rfl⟩
    simp [List.map_map, Function.comp]

/-- Witness for C4: a two-property reply yields exactly those two keys
with unwrapped values. -/
theorem c4_get_properties_exact_witness :
    (hostname1.GetProperties sampleConn envTwoProps).2 =
      Except.ok [("Hostname", Value.str "node-1"), ("Chassis", Value.str "vm")] := by
  obtain ⟨out, h1, _, h3⟩ := (c4_get_properties_exact sampleConn envTwoProps).2
    [("Hostname", { value := Value.str "node-1" }),
     ("Chassis", { value := Value.str "vm" })] rfl rfl
  subst h3
  exact h1

/-- Claim C8: on the surface shared by the two source variants, every
operation is the same function: `New`, `initConnection` and the five
setters of the setters-only file coincide with those of the full
file on every input. -/
theorem c8_variants_equivalent :
    part000.New = hostname1.New ∧
    part000.initConnection = hostname1.initConnection ∧
    part000.SetHostname = hostname1.SetHostname ∧
    part000.SetStaticHostname = hostname1.SetStaticHostname ∧
    part000.SetPrettyHostname = hostname1.SetPrettyHostname ∧
    part000.SetIconName = hostname1.SetIconName ∧
    part000.SetChassis = hostname1.SetChassis :=
  ⟨rfl, rfl, rfl, rfl, rfl, rfl, rfl⟩

/-- `GetProperties` issues exactly the one `Properties.GetAll` call on
the bound object. -/
theorem hostname1.GetProperties_calls (c : Conn) (env : Remote) :
    (hostname1.GetProperties c env).1 =
      [{ obj := c.object, method := "org.freedesktop.DBus.Properties.GetAll",
         flags := 0, args := [Arg.str hostname1.dbusInterface] }] := by
  unfold hostname1.GetProperties hostname1.objectCall
  dsimp only
  split <;> rfl

/-- `GetProperty` issues exactly the one `Properties.Get` call on the
bound object. -/
theorem hostname1.GetProperty_calls (c : Conn) (env : Remote) (p : String) :
    (hostname1.GetProperty c env p).1 =
      [{ obj := c.object, method := "org.freedesktop.DBus.Properties.Get",
         flags := 0, args := [Arg.str hostname1.dbusInterface, Arg.str p] }] := by
  unfold hostname1.GetProperty hostname1.objectCall
  dsimp only
  split <;> rfl

/-- `GetHostname` issues exactly the one call of its property fetch. -/
theorem hostname1.GetHostname_calls (c : Conn) (env : Remote) :
    (hostname1.GetHostname c env).1 =
      [{ obj := c.object, method := "org.freedesktop.DBus.Properties.Get",
         flags := 0, args := [Arg.str hostname1.dbusInterface, Arg.str "Hostname"] }] := by
  unfold hostname1.GetHostname
  split
  next tr e heq =>
    have h1 : (hostname1.GetProperty c env "Hostname").1 = tr := by rw [heq]
    rw [hostname1.GetProperty_calls] at h1
    exact h1.symm
  next tr hn heq =>
    split
    all_goals
      have h1 : (hostname1.GetProperty c env "Hostname").1 = tr := by rw [heq]
      rw [hostname1.GetProperty_calls] at h1
      exact h1.symm

/-- `GetStaticHostname` issues exactly the one call of its property
fetch. -/
theorem hostname1.GetStaticHostname_calls (c : Conn) (env : Remote) :
    (hostname1.GetStaticHostname c env).1 =
      [{ obj := c.object, method := "org.freedesktop.DBus.Properties.Get",
         flags := 0,
         args := [Arg.str hostname1.dbusInterface, Arg.str "StaticHostname"] }] := by
  unfold hostname1.GetStaticHostname
  split
  next tr e heq =>
    have h1 : (hostname1.GetProperty c env "StaticHostname").1 = tr := by rw [heq]
    rw [hostname1.GetProperty_calls] at h1
    exact h1.symm
  next tr hn heq =>
    split
    all_goals
      have h1 : (hostname1.GetProperty c env "StaticHostname").1 = tr := by rw [heq]
      rw [hostname1.GetProperty_calls] at h1
      exact h1.symm

/-- Every post-construction operation leaves the receiver unchanged. -/
theorem runOp_state (c : Conn) (env : Remote) (op : Op) :
    (runOp c env op).1 = c := by
  cases op <;> simp only [runOp]

/-- Every call issued by a post-construction operation targets the
bound object. -/
theorem runOp_calls_obj (c : Conn) (env : Remote) (op : Op) :
    ∀ call ∈ (runOp c env op).2.1, call.obj = c.object := by
  cases op <;> simp only [runOp]
  case getProperties => simp [hostname1.GetProperties_calls]
  case getProperty p => simp [hostname1.GetProperty_calls]
  case getHostname => simp [hostname1.GetHostname_calls]
  case getStaticHostname => simp [hostname1.GetStaticHostname_calls]
  all_goals simp [hostname1.SetHostname, hostname1.SetStaticHostname,
    hostname1.SetPrettyHostname, hostname1.SetIconName, hostname1.SetChassis,
    hostname1.objectCall]

/-- Claim C9: every operation available after construction leaves the
adapter state (connection handle and bound object) unchanged and only
exchanges request/response pairs with the same bound object. -/
theorem c9_ops_stateless (c : Conn) (env : Remote) (op : Op) :
    (runOp c env op).1 = c ∧
    ∀ call ∈ (runOp c env op).2.1, call.obj = c.object :=
  ⟨runOp_state c env op, runOp_calls_obj c env op⟩

/-- Witness for C9 at a concrete adapter, stub remote and operation. -/
theorem c9_ops_stateless_witness :
    (runOp sampleConn envNode1 Op.getHostname).1 = sampleConn :=
  (c9_ops_stateless sampleConn envNode1 Op.getHostname).1
